import Mathlib

/-!
Shallow embedding of the legal-intel-dashboard backend services
(`app/services/metadata_extractor.py` and `app/services/query_service.py`)
and proofs about their specified behaviour.

External AI interaction is modelled as an explicit oracle value describing
the collaborator's behaviour (raised exception, unparseable response, or a
successfully parsed payload); everything else is translated directly from
the Python source.
-/

/-- Python `needle in haystack` prefix step over character lists. -/
def prefixCheck : List Char → List Char → Bool
  | [], _ => true
  | _ :: _, [] => false
  | a :: as, b :: bs => a == b && prefixCheck as bs

/-- Python `needle in haystack` substring search over character lists. -/
def subCheck : List Char → List Char → Bool
  | n, [] => n.isEmpty
  | n, b :: bs => prefixCheck n (b :: bs) || subCheck n bs

/-- Python substring containment `needle in haystack` for strings. -/
def containsSub (needle haystack : String) : Bool :=
  subCheck needle.toList haystack.toList

/-- Python `str.lower()` (ASCII, which is all the source uses). -/
def strLower (s : String) : String :=
  ⟨s.toList.map Char.toLower⟩

/-- Python `any(keyword in s for keyword in keywords)`. -/
def anyKw (keywords : List String) (s : String) : Bool :=
  keywords.any (fun k => containsSub k s)

/-- Pydantic schema `DocumentMetadata` from `app/schemas/document.py`. -/
structure DocumentMetadata where
  agreement_type : Option String
  governing_law : Option String
  jurisdiction : Option String
  geography : Option String
  industry_sector : Option String
  confidence_score : Option ℚ
deriving DecidableEq

/-- The five metadata fields as parsed out of a successful AI JSON reply
(`metadata_dict.get(...)` in `_extract_with_openai`). -/
structure ParsedMeta where
  agreement_type : Option String
  governing_law : Option String
  jurisdiction : Option String
  geography : Option String
  industry_sector : Option String
deriving DecidableEq

/-- Behaviour of the external AI collaborator for one metadata-extraction
call: the API call raises (network failure included), the response text
fails JSON parsing, or it parses to a payload. -/
inductive AIMetaBehavior where
  | exn : AIMetaBehavior
  | badJSON : AIMetaBehavior
  | ok : ParsedMeta → AIMetaBehavior
deriving DecidableEq

/-- `MetadataExtractor._detect_agreement_type`: the ordered pattern table. -/
def agreement_patterns : List (String × List String) :=
  [("NDA", ["non-disclosure", "confidentiality", "nda"]),
   ("MSA", ["master service", "msa", "master agreement"]),
   ("Service Agreement", ["service agreement", "services agreement"]),
   ("Employment Contract", ["employment", "employee", "employment agreement"]),
   ("Franchise Agreement", ["franchise", "franchisee", "franchisor"]),
   ("Licensing Agreement", ["license", "licensing", "licensed"]),
   ("Supply Agreement", ["supply", "supplier", "procurement"]),
   ("Partnership Agreement", ["partnership", "partner", "joint venture"])]

/-- One in-order pass of a pattern table over a string: the first label any
of whose keywords occurs in the string (`for ...: if any(...): return`). -/
def firstPatternMatch (patterns : List (String × List String)) (s : String) : Option String :=
  patterns.findSome? (fun p => if anyKw p.2 s then some p.1 else none)

/-- `MetadataExtractor._detect_agreement_type`: filename pass over the whole
table first, then the document-text pass. -/
def detect_agreement_type (text filename : String) : Option String :=
  match firstPatternMatch agreement_patterns filename with
  | some t => some t
  | none => firstPatternMatch agreement_patterns text

/-- `MetadataExtractor._detect_governing_law`: the ordered jurisdiction table. -/
def law_patterns : List (String × List String) :=
  [("UAE", ["uae", "united arab emirates", "dubai", "abu dhabi"]),
   ("UK", ["england", "wales", "united kingdom", "english law"]),
   ("Delaware", ["delaware", "delaware law"]),
   ("New York", ["new york", "ny law", "new york law"]),
   ("California", ["california", "california law", "ca law"]),
   ("Singapore", ["singapore", "singapore law"]),
   ("Germany", ["germany", "german law", "deutschland"])]

/-- `MetadataExtractor._detect_governing_law`: per label, first the phrase
patterns `governed by <kw>` / `laws of <kw>`, then bare keyword presence. -/
def detect_governing_law (text : String) : Option String :=
  law_patterns.findSome? (fun p =>
    if p.2.any (fun k =>
        containsSub ("governed by " ++ k) text || containsSub ("laws of " ++ k) text) then
      some p.1
    else if anyKw p.2 text then
      some p.1
    else none)

/-- `MetadataExtractor._detect_geography`: the ordered region table. -/
def geo_patterns : List (String × List String) :=
  [("Middle East", ["middle east", "gulf", "gcc", "arab"]),
   ("Europe", ["europe", "european", "eu"]),
   ("North America", ["north america", "usa", "canada", "united states"]),
   ("Asia-Pacific", ["asia", "pacific", "apac", "asian"])]

/-- `MetadataExtractor._detect_geography`. -/
def detect_geography (text : String) : Option String :=
  firstPatternMatch geo_patterns text

/-- `MetadataExtractor._detect_industry_sector`: the ordered sector table. -/
def industry_patterns : List (String × List String) :=
  [("Technology", ["software", "technology", "tech", "digital", "it", "saas"]),
   ("Oil & Gas", ["oil", "gas", "petroleum", "energy", "drilling"]),
   ("Healthcare", ["health", "medical", "pharma", "hospital", "healthcare"]),
   ("Financial Services", ["bank", "finance", "financial", "investment", "credit"]),
   ("Real Estate", ["real estate", "property", "construction", "building"]),
   ("Manufacturing", ["manufacturing", "production", "factory", "industrial"]),
   ("Retail", ["retail", "commerce", "shopping", "consumer goods"])]

/-- `MetadataExtractor._detect_industry_sector`. -/
def detect_industry_sector (text : String) : Option String :=
  firstPatternMatch industry_patterns text

/-- `MetadataExtractor._extract_with_fallback`. -/
def extract_with_fallback (document_text filename : String) : DocumentMetadata × ℚ :=
  let text_lower := strLower document_text
  let agreement_type := detect_agreement_type text_lower (strLower filename)
  let governing_law := detect_governing_law text_lower
  let geography := detect_geography text_lower
  let industry_sector := detect_industry_sector text_lower
  ({ agreement_type := agreement_type
     governing_law := governing_law
     jurisdiction := governing_law
     geography := geography
     industry_sector := industry_sector
     confidence_score := some 0.6 }, 0.6)

/-- `MetadataExtractor._extract_with_openai`: a raised exception or a JSON
parse failure selects the fallback path; a parsed payload is returned with
confidence 0.85. -/
def extract_with_openai (ai : AIMetaBehavior) (document_text filename : String) :
    DocumentMetadata × ℚ :=
  match ai with
  | .exn => extract_with_fallback document_text filename
  | .badJSON => extract_with_fallback document_text filename
  | .ok m =>
    ({ agreement_type := m.agreement_type
       governing_law := m.governing_law
       jurisdiction := m.jurisdiction
       geography := m.geography
       industry_sector := m.industry_sector
       confidence_score := some 0.85 }, 0.85)

/-- `MetadataExtractor.extract_metadata`: path selection on whether an
OpenAI API key is configured (the client exists iff the key is set). -/
def extract_metadata (api_key_configured : Bool) (ai : AIMetaBehavior)
    (document_text filename : String) : DocumentMetadata × ℚ :=
  if api_key_configured then extract_with_openai ai document_text filename
  else extract_with_fallback document_text filename

/-- Whether the AI metadata path succeeds: key configured and the reply
parses. -/
def aiMetaSucceeds (api_key_configured : Bool) (ai : AIMetaBehavior) : Bool :=
  api_key_configured &&
    match ai with
    | .ok _ => true
    | _ => false

/-- SQLAlchemy model `Document` from `app/models/document.py` (the fields
the services read). -/
structure Document where
  id : Nat
  filename : String
  original_filename : String
  file_path : String
  file_size : Nat
  content_text : String
  agreement_type : Option String
  governing_law : Option String
  jurisdiction : Option String
  geography : Option String
  industry_sector : Option String
  processing_status : String
  processing_error : Option String
  confidence_score : Option ℚ
deriving DecidableEq

/-- Pydantic schema `QueryResult`: one result row. `data` is the dict built
in the order its keys were inserted. -/
structure QueryResult where
  document : String
  data : List (String × String)
deriving DecidableEq

/-- One entry of the JSON array parsed from a successful AI query reply:
either a dict holding both a `document` and a `data` key, or anything else
(which `_process_with_openai` skips). -/
inductive ParsedItem where
  | valid : String → List (String × String) → ParsedItem
  | invalid : ParsedItem
deriving DecidableEq

/-- Behaviour of the external AI collaborator for one query call. -/
inductive AIQueryBehavior where
  | exn : AIQueryBehavior
  | badJSON : AIQueryBehavior
  | ok : List ParsedItem → AIQueryBehavior
deriving DecidableEq

/-- `QueryService._analyze_question_intent`: the keyword table, in source
order. -/
def field_keywords : List (String × List String) :=
  [("governing_law", ["law", "governed", "governing", "jurisdiction", "legal"]),
   ("jurisdiction", ["jurisdiction", "court", "dispute", "legal"]),
   ("geography", ["geography", "region", "location", "country", "where"]),
   ("industry_sector", ["industry", "sector", "business", "field"]),
   ("agreement_type", ["type", "agreement", "contract", "kind"])]

/-- `QueryService._analyze_question_intent`: a set seeded with
`agreement_type`, then each matching field added (set insertion modelled as
append-if-new). -/
def analyze_question_intent (question : String) : List String :=
  field_keywords.foldl
    (fun acc p => if anyKw p.2 question && !(acc.contains p.1) then acc ++ [p.1] else acc)
    ["agreement_type"]

/-- Python `if not field or needle not in field.lower()` made positive: the
field is truthy (non-null, non-empty) and some needle occurs in its
lowercase form. -/
def truthyContains (field : Option String) (needles : List String) : Bool :=
  match field with
  | none => false
  | some s => !(s == "") && needles.any (fun n => containsSub n (strLower s))

/-- `QueryService._document_matches_query`: the fixed trigger table; each
triggered condition is an early `return False`, i.e. a hard conjunct. -/
def document_matches_query (doc : Document) (question : String) : Bool :=
  (if anyKw ["uae", "emirates", "dubai"] question then
    truthyContains doc.governing_law ["uae"] else true) &&
  (if anyKw ["uk", "england", "british"] question then
    truthyContains doc.governing_law ["uk"] else true) &&
  (if containsSub "nda" question || containsSub "non-disclosure" question then
    truthyContains doc.agreement_type ["nda"] else true) &&
  (if containsSub "msa" question || containsSub "master service" question then
    truthyContains doc.agreement_type ["msa"] else true) &&
  (if anyKw ["technology", "tech", "software"] question then
    truthyContains doc.industry_sector ["technology"] else true) &&
  (if anyKw ["oil", "gas", "energy"] question then
    truthyContains doc.industry_sector ["oil", "gas", "energy"] else true)

/-- `getattr(doc, field, None)` for the five metadata fields the query
service requests. -/
def getField (doc : Document) (field : String) : Option String :=
  if field == "agreement_type" then doc.agreement_type
  else if field == "governing_law" then doc.governing_law
  else if field == "jurisdiction" then doc.jurisdiction
  else if field == "geography" then doc.geography
  else if field == "industry_sector" then doc.industry_sector
  else none

/-- Python `field.replace('_', ' ')`. -/
def underscoresToSpaces (s : String) : String :=
  ⟨s.toList.map (fun c => if c == '_' then ' ' else c)⟩

/-- Python `str.title()` over a character list: an alphabetic character is
uppercased after a non-alphabetic one and lowercased otherwise. -/
def titleAux : Bool → List Char → List Char
  | _, [] => []
  | prevAlpha, c :: cs =>
    (if c.isAlpha then (if prevAlpha then c.toLower else c.toUpper) else c)
      :: titleAux c.isAlpha cs

/-- Python `str.title()`. -/
def pythonTitle (s : String) : String :=
  ⟨titleAux false s.toList⟩

/-- `field.replace('_', ' ').title()` from `_process_with_fallback`. -/
def readableKey (field : String) : String :=
  pythonTitle (underscoresToSpaces field)

/-- The `data` dict built for one document in `_process_with_fallback`:
each requested field whose value is truthy contributes one entry under its
human-readable key, in requested-field order. -/
def buildData (doc : Document) (return_fields : List String) : List (String × String) :=
  return_fields.filterMap (fun f =>
    match getField doc f with
    | some v => if v == "" then none else some (readableKey f, v)
    | none => none)

/-- The loop body of `_process_with_fallback` for one document: a result
row iff the document matches the query and its `data` dict is non-empty. -/
def process_doc (question_lower : String) (return_fields : List String)
    (doc : Document) : Option QueryResult :=
  if document_matches_query doc question_lower then
    let d := buildData doc return_fields
    if d.isEmpty then none else some { document := doc.original_filename, data := d }
  else none

/-- `QueryService._process_with_fallback`. -/
def process_with_fallback (question : String) (documents : List Document) :
    List QueryResult :=
  let question_lower := strLower question
  documents.filterMap (process_doc question_lower (analyze_question_intent question_lower))

/-- `QueryService._process_with_openai`: a raised exception or JSON parse
failure selects the fallback path on the same inputs; a parsed array keeps
exactly its well-formed entries. -/
def process_with_openai (ai : AIQueryBehavior) (question : String)
    (documents : List Document) : List QueryResult :=
  match ai with
  | .exn => process_with_fallback question documents
  | .badJSON => process_with_fallback question documents
  | .ok items =>
    items.filterMap (fun i =>
      match i with
      | .valid d data => some { document := d, data := data }
      | .invalid => none)

/-- `QueryService.process_query`: filter to completed documents, return the
empty list on an empty collection, otherwise select the AI or fallback path.
The second component records whether the external AI path was entered. -/
def process_query (api_key_configured : Bool) (ai : AIQueryBehavior)
    (question : String) (db : List Document) : List QueryResult × Bool :=
  let documents := db.filter (fun d => d.processing_status == "completed")
  if documents.isEmpty then ([], false)
  else if api_key_configured then (process_with_openai ai question documents, true)
  else (process_with_fallback question documents, false)

/-- The per-label match condition of `_detect_governing_law` written as a
single boolean: some keyword occurs in a phrase pattern, or some keyword
occurs bare anywhere in the text. -/
def lawLabelMatch (keywords : List String) (text : String) : Bool :=
  keywords.any (fun k =>
    containsSub ("governed by " ++ k) text || containsSub ("laws of " ++ k) text)
  || keywords.any (fun k => containsSub k text)

/-- A completed document governed by UK law. -/
def docUK : Document :=
  { id := 1, filename := "uk_nda.pdf", original_filename := "uk_nda.pdf",
    file_path := "/uploads/uk_nda.pdf", file_size := 100, content_text := "",
    agreement_type := some "NDA", governing_law := some "UK",
    jurisdiction := some "UK", geography := none, industry_sector := none,
    processing_status := "completed", processing_error := none,
    confidence_score := some 0.6 }

/-- A completed document governed by UAE law. -/
def docUAE : Document :=
  { id := 2, filename := "uae_msa.pdf", original_filename := "uae_msa.pdf",
    file_path := "/uploads/uae_msa.pdf", file_size := 100, content_text := "",
    agreement_type := some "MSA", governing_law := some "UAE",
    jurisdiction := some "UAE", geography := none, industry_sector := none,
    processing_status := "completed", processing_error := none,
    confidence_score := some 0.6 }

/-- Claim C1: for every input and every failing behaviour of the external
AI collaborator (raised exception / network failure, or a response whose
JSON parse fails), `extract_metadata` and `process_query` never raise (the
embedding is total) and return exactly the fallback path's result on the
same inputs, with no partial AI results mixed in. -/
theorem claim_C1 :
    ∀ (t f q : String) (docs : List Document),
      extract_with_openai .exn t f = extract_with_fallback t f ∧
      extract_with_openai .badJSON t f = extract_with_fallback t f ∧
      extract_metadata true .exn t f = extract_with_fallback t f ∧
      extract_metadata true .badJSON t f = extract_with_fallback t f ∧
      process_with_openai .exn q docs = process_with_fallback q docs ∧
      process_with_openai .badJSON q docs = process_with_fallback q docs :=
  fun _ _ _ _ => ⟨rfl, rfl, rfl, rfl, rfl, rfl⟩

/-- Claim C2: the confidence returned by `extract_metadata` is exactly 0.85
when the AI path succeeds and exactly 0.6 otherwise (fallback selected
because the key is unconfigured, the call raised, or the reply was
unparseable), never any other value, and it always equals the
`confidence_score` field of the returned record. -/
theorem claim_C2 :
    ∀ (cfg : Bool) (ai : AIMetaBehavior) (t f : String),
      ((extract_metadata cfg ai t f).2 = 0.85 ∨ (extract_metadata cfg ai t f).2 = 0.6) ∧
      (extract_metadata cfg ai t f).1.confidence_score = some (extract_metadata cfg ai t f).2 ∧
      (extract_metadata cfg ai t f).2 = (if aiMetaSucceeds cfg ai then (0.85 : ℚ) else 0.6) := by
  intro cfg ai t f
  cases cfg <;> cases ai <;>
    simp [extract_metadata, extract_with_openai, extract_with_fallback, aiMetaSucceeds]

/-- Claim C3: on the fallback extraction path the returned `jurisdiction`
always equals the returned `governing_law`, for every input, including the
all-null case. -/
theorem claim_C3 :
    ∀ (t f : String),
      (extract_with_fallback t f).1.jurisdiction = (extract_with_fallback t f).1.governing_law :=
  fun _ _ => rfl

/-- Claim C4: fallback agreement-type detection checks the filename against
the whole ordered table before the document text (a filename match wins
whatever the text says; the result is null only when both passes fail), and
in each pass the first matching label of the table wins: text holding both
NDA and MSA keywords gives `NDA`, a filename holding `nda` beats
license-only body text, and no keyword anywhere gives null. -/
theorem claim_C4 :
    (∀ text filename label, firstPatternMatch agreement_patterns filename = some label →
      detect_agreement_type text filename = some label) ∧
    (∀ text filename, firstPatternMatch agreement_patterns filename = none →
      firstPatternMatch agreement_patterns text = none →
      detect_agreement_type text filename = none) ∧
    detect_agreement_type
      (strLower "This includes non-disclosure duties and master service terms")
      (strLower "doc.pdf") = some "NDA" ∧
    detect_agreement_type (strLower "The license terms apply") (strLower "my_nda.pdf")
      = some "NDA" ∧
    detect_agreement_type (strLower "Hello world") (strLower "doc.pdf") = none := by
  refine ⟨?_, ?_, by decide, by decide, by decide⟩
  · intro text filename label h
    simp [detect_agreement_type, h]
  · intro text filename h1 h2
    simp [detect_agreement_type, h1, h2]

/-- Witness for claim C4 at a concrete filename/text pair. -/
theorem claim_C4_witness :
    firstPatternMatch agreement_patterns "my_nda.pdf" = some "NDA" ∧
    detect_agreement_type "the license terms apply" "my_nda.pdf" = some "NDA" :=
  ⟨by decide, claim_C4.1 "the license terms apply" "my_nda.pdf" "NDA" (by decide)⟩

/-- Claim C5: fallback governing-law detection walks the jurisdiction table
in order and returns the first label one of whose keywords matches either a
phrase pattern (`governed by <kw>` / `laws of <kw>`) or occurs bare in the
text, null when no label matches; in particular `governed by uae` and a
bare `dubai` both resolve to `UAE`. -/
theorem claim_C5 :
    (∀ text, detect_governing_law text =
      law_patterns.findSome? (fun p => if lawLabelMatch p.2 text then some p.1 else none)) ∧
    detect_governing_law (strLower "This Agreement is governed by UAE law") = some "UAE" ∧
    detect_governing_law (strLower "Our office is located in Dubai") = some "UAE" ∧
    detect_governing_law (strLower "Nothing relevant here") = none := by
  refine ⟨?_, by decide, by decide, by decide⟩
  intro text
  unfold detect_governing_law
  congr 1
  funext p
  by_cases h1 : p.2.any (fun k =>
      containsSub ("governed by " ++ k) text || containsSub ("laws of " ++ k) text) = true
  · simp [lawLabelMatch, h1]
  · by_cases h2 : anyKw p.2 text = true
    · simp [lawLabelMatch, anyKw, h1, h2]
    · simp [lawLabelMatch, anyKw, h1, h2]

/-- Claim C6: fallback intent analysis yields a duplicate-free field set
that always holds `agreement_type` and holds each of `governing_law`,
`jurisdiction`, `geography`, `industry_sector` exactly when the lowercased
question holds one of that field's trigger keywords as a substring — and
nothing else. -/
theorem claim_C6 :
    ∀ question,
      (analyze_question_intent question).Nodup ∧
      "agreement_type" ∈ analyze_question_intent question ∧
      (∀ f, f ∈ analyze_question_intent question ↔
        f = "agreement_type" ∨
        (f = "governing_law" ∧
          anyKw ["law", "governed", "governing", "jurisdiction", "legal"] question = true) ∨
        (f = "jurisdiction" ∧
          anyKw ["jurisdiction", "court", "dispute", "legal"] question = true) ∨
        (f = "geography" ∧
          anyKw ["geography", "region", "location", "country", "where"] question = true) ∨
        (f = "industry_sector" ∧
          anyKw ["industry", "sector", "business", "field"] question = true)) := by
  intro question
  by_cases h1 : anyKw ["law", "governed", "governing", "jurisdiction", "legal"] question = true <;>
  by_cases h2 : anyKw ["jurisdiction", "court", "dispute", "legal"] question = true <;>
  by_cases h3 : anyKw ["geography", "region", "location", "country", "where"] question = true <;>
  by_cases h4 : anyKw ["industry", "sector", "business", "field"] question = true <;>
  by_cases h5 : anyKw ["type", "agreement", "contract", "kind"] question = true <;>
  simp [analyze_question_intent, field_keywords, h1, h2, h3, h4, h5]

/-- Claim C7: in the fallback query path every trigger-table condition is an
independent hard AND filter: a question holding a UAE trigger term excludes
every document whose `governing_law` is null or lacks `uae`
(case-insensitive), a question with no trigger term passes every document,
and the question `Which agreements are governed by UAE law?` excludes the
UK-law document while keeping the UAE-law one in the returned results. -/
theorem claim_C7 :
    (∀ question doc,
      anyKw ["uae", "emirates", "dubai"] question = true →
      (match doc.governing_law with
       | none => true
       | some s => !(containsSub "uae" (strLower s))) = true →
      document_matches_query doc question = false) ∧
    (∀ question doc,
      anyKw ["uae", "emirates", "dubai"] question = false →
      anyKw ["uk", "england", "british"] question = false →
      (containsSub "nda" question || containsSub "non-disclosure" question) = false →
      (containsSub "msa" question || containsSub "master service" question) = false →
      anyKw ["technology", "tech", "software"] question = false →
      anyKw ["oil", "gas", "energy"] question = false →
      document_matches_query doc question = true) ∧
    document_matches_query docUK (strLower "Which agreements are governed by UAE law?") = false ∧
    document_matches_query docUAE (strLower "Which agreements are governed by UAE law?") = true ∧
    process_with_fallback "Which agreements are governed by UAE law?" [docUK, docUAE] =
      [{ document := "uae_msa.pdf",
         data := [("Agreement Type", "MSA"), ("Governing Law", "UAE")] }] := by
  refine ⟨?_, ?_, by decide, by decide, by decide⟩
  · intro question doc h1 h2
    rcases hgl : doc.governing_law with _ | s <;>
      simp [hgl] at h2 <;>
      simp [document_matches_query, truthyContains, h1, hgl, h2]
  · intro question doc h1 h2 h3 h4 h5 h6
    simp [document_matches_query, h1, h2, h3, h4, h5, h6]

/-- Witness for claim C7: the UAE filter excludes the UK document for a
UAE-triggering question, and a trigger-free question passes it. -/
theorem claim_C7_witness :
    document_matches_query docUK "uae" = false ∧
    document_matches_query docUK "hello" = true :=
  ⟨claim_C7.1 "uae" docUK (by decide) (by decide),
   claim_C7.2.1 "hello" docUK (by decide) (by decide) (by decide) (by decide)
     (by decide) (by decide)⟩

/-- Claim C8: a document all of whose requested fields are null yields no
result row even when it passes the filter; every returned row has a
non-empty `data` map each entry of which comes from a non-null (truthy)
requested field of some input document, keyed by the field name title-cased
with underscores turned to spaces. -/
theorem claim_C8 :
    (∀ question_lower fields doc,
      fields.all (fun f => (getField doc f).isNone) = true →
      process_doc question_lower fields doc = none) ∧
    (∀ question docs r, r ∈ process_with_fallback question docs → r.data ≠ []) ∧
    (∀ question docs r, r ∈ process_with_fallback question docs →
      ∀ kv, kv ∈ r.data → ∃ doc, doc ∈ docs ∧
        ∃ f, f ∈ analyze_question_intent (strLower question) ∧
          getField doc f = some kv.2 ∧ kv.2 ≠ "" ∧ kv.1 = readableKey f) ∧
    readableKey "agreement_type" = "Agreement Type" ∧
    readableKey "governing_law" = "Governing Law" ∧
    readableKey "jurisdiction" = "Jurisdiction" ∧
    readableKey "geography" = "Geography" ∧
    readableKey "industry_sector" = "Industry Sector" := by
  refine ⟨?_, ?_, ?_, by decide, by decide, by decide, by decide, by decide⟩
  · intro ql fields doc h
    rw [List.all_eq_true] at h
    have hb : buildData doc fields = [] := by
      rw [buildData, List.filterMap_eq_nil_iff]
      intro f hf
      have := h f hf
      rw [Option.isNone_iff_eq_none] at this
      rw [this]
    simp [process_doc, hb]
  · intro question docs r hr
    simp only [process_with_fallback, List.mem_filterMap] at hr
    obtain ⟨doc, hdoc, hpd⟩ := hr
    rw [process_doc] at hpd
    split at hpd
    · by_cases hemp : (buildData doc (analyze_question_intent (strLower question))).isEmpty = true
      · simp [hemp] at hpd
      · simp [hemp] at hpd
        cases hpd
        simpa [List.isEmpty_iff] using hemp
    · exact absurd hpd (by simp)
  · intro question docs r hr kv hkv
    simp only [process_with_fallback, List.mem_filterMap] at hr
    obtain ⟨doc, hdoc, hpd⟩ := hr
    refine ⟨doc, hdoc, ?_⟩
    rw [process_doc] at hpd
    split at hpd
    · by_cases hemp : (buildData doc (analyze_question_intent (strLower question))).isEmpty = true
      · simp [hemp] at hpd
      · simp [hemp] at hpd
        cases hpd
        rw [buildData, List.mem_filterMap] at hkv
        obtain ⟨f, hf, hbody⟩ := hkv
        refine ⟨f, hf, ?_⟩
        rcases hg : getField doc f with _ | v
        · rw [hg] at hbody
          simp at hbody
        · rw [hg] at hbody
          by_cases hv : v == ""
          · simp [hv] at hbody
          · obtain ⟨k, v2⟩ := kv
            simp [hv] at hbody
            obtain ⟨hk, hv2⟩ := hbody
            subst hk
            subst hv2
            exact ⟨rfl, by simpa using hv, rfl⟩
    · exact absurd hpd (by simp)

/-- Witness for claim C8: the UK document has null geography and industry,
so requesting only those fields yields no result row for it. -/
theorem claim_C8_witness :
    process_doc "hello" ["geography", "industry_sector"] docUK = none :=
  claim_C8.1 "hello" ["geography", "industry_sector"] docUK (by decide)

/-- Claim C9: over an empty document collection `process_query` returns the
empty result list and never enters the external AI path, whatever the
configured credential and AI behaviour (the emptiness check precedes path
selection). -/
theorem claim_C9 :
    ∀ (cfg : Bool) (ai : AIQueryBehavior) (question : String),
      process_query cfg ai question [] = ([], false) :=
  fun _ _ _ => rfl

/-- Claim C10: any document text whose lowercased form holds the substring
`it` — also inside common words such as `with` or `limited` — makes
fallback industry-sector detection return `Technology`, whatever other
sector keywords appear, because `it` is a keyword of the first entry of the
ordered sector table. -/
theorem claim_C10 :
    ∀ text, containsSub "it" (strLower text) = true →
      detect_industry_sector (strLower text) = some "Technology" := by
  intro text h
  simp [detect_industry_sector, firstPatternMatch, industry_patterns,
    List.findSome?_cons, anyKw, List.any_cons, h]

/-- Witness for claim C10 at a text whose only occurrences of `it` are
inside the words `with` and `limited`. -/
theorem claim_C10_witness :
    containsSub "it" (strLower "Agreement with Acme Limited") = true ∧
    detect_industry_sector (strLower "Agreement with Acme Limited") = some "Technology" :=
  ⟨by decide, claim_C10 "Agreement with Acme Limited" (by decide)⟩
